import Mathlib

/-! Verification of the media-rendering excerpt of a desktop messaging client.

Shallow embedding of:
- `PaintWaveform` (history_view_document.cpp): waveform bucket resampling;
- `Document::updatePressed` / voice-seek proportion handling;
- `Document::sizeForGrouping(Optimal)` and `Photo::sizeForGrouping(Optimal)`;
- `StickersListFooter` scroll clamping, `validateSelectedIcon`,
  `ScrollState::animationCallback` (stickers_list_footer.cpp);
- `Photo` tier resolution, image-cache validation and streaming error
  handling (history_view_photo.cpp).
-/

namespace Spec2Proof

/-! Section: Waveform model (PaintWaveform, history_view_document.cpp lines 74-143) -/

/-- Voice data as seen by `PaintWaveform`: the raw waveform samples and the
`wavemax` normalisation value. -/
structure VoiceData where
  waveform : List Int
  wavemax : Int
deriving Repr, DecidableEq

/-- The guard at the top of `PaintWaveform`: the real waveform is used only
when voice data is present, the waveform is non-empty, and its first sample
is non-negative; otherwise a placeholder is used. -/
def selectWaveform : Option VoiceData → Option (List Int)
  | none => none
  | some v =>
    match v.waveform with
    | [] => none
    | x :: _ => if x < 0 then none else some v.waveform

/-- Modelled from the spec: `Media::Player::kWaveformSamplesCount`, the
placeholder sample count, is defined in the audio-player module which is not
part of this excerpt; the properties proved do not depend on its value. -/
def kWaveformSamplesCount : Nat := 100

/-- The effective sample list the `PaintWaveform` loop iterates over:
the real waveform, or `kWaveformSamplesCount` zero samples
(`wfSize = kWaveformSamplesCount`, `value = 0`) when the guard rejects it. -/
def effectiveSamples (vd : Option VoiceData) : List Int :=
  match selectWaveform vd with
  | none => List.replicate kWaveformSamplesCount 0
  | some wf => wf

/-- The indices at which `PaintWaveform` reads the real waveform array
(`wf->at(i)` for `i` in `[0, wfSize)`); empty when the placeholder is used. -/
def paintWaveformReads (vd : Option VoiceData) : List Nat :=
  match selectWaveform vd with
  | none => []
  | some wf => List.range wf.length

/-- Loop state of the resampling loop in `PaintWaveform`: the running bucket
accumulator `sum`, the samples gathered into the current (not yet drawn)
bucket, and the buckets already emitted as drawn bars, each holding exactly
the samples whose values fed its `maxValue`. -/
structure WfState where
  sum : Nat
  pending : List Int
  buckets : List (List Int)
deriving Repr, DecidableEq

/-- One iteration of the `PaintWaveform` loop body for sample `value`:
if `sum + barCount < wfSize` the sample only feeds the accumulator,
otherwise a bar is drawn; the boundary sample joins the drawn bucket when
`sum + barCount - wfSize < (barCount + 1) / 2` and otherwise starts the
next bucket (mirroring the two `maxValue` assignments in the source). -/
def wfStep (wfSize barCount : Nat) (s : WfState) (value : Int) : WfState :=
  if s.sum + barCount < wfSize then
    { sum := s.sum + barCount, pending := s.pending ++ [value], buckets := s.buckets }
  else
    let sum2 := s.sum + barCount - wfSize
    if sum2 < (barCount + 1) / 2 then
      { sum := sum2, pending := [], buckets := s.buckets ++ [s.pending ++ [value]] }
    else
      { sum := sum2, pending := [value], buckets := s.buckets ++ [s.pending] }

/-- The whole resampling loop of `PaintWaveform` over the sample list `wf`
with the given `barCount`. -/
def paintWaveformBuckets (wf : List Int) (barCount : Nat) : WfState :=
  wf.foldl (wfStep wf.length barCount) ⟨0, [], []⟩

/-- Source: `barCount = std::min(availableWidth / (barWidth + skip), wfSize)`. -/
def barCountOf (availableWidth barWidth barSkip wfSize : Nat) : Nat :=
  min (availableWidth / (barWidth + barSkip)) wfSize

/-- Source: `PaintWaveform` run on voice data: the loop over the effective samples
with the bar count derived from the available width. -/
def paintWaveformRun
    (vd : Option VoiceData) (availableWidth barWidth barSkip : Nat) : WfState :=
  let wf := effectiveSamples vd
  paintWaveformBuckets wf (barCountOf availableWidth barWidth barSkip wf.length)

/-- The per-bar value drawn for a bucket: the running `maxValue` starts at 0
and takes the max of the sample values assigned to the bucket. -/
def bucketMaxValue (bucket : List Int) : Int :=
  bucket.foldl max 0

/-! Section: Integer clamp (std::clamp as used throughout the excerpt) -/

/-- Source: `std::clamp(v, lo, hi)` on machine integers. -/
def stdClampInt (v lo hi : Int) : Int :=
  if v < lo then lo else if hi < v then hi else v

/-- Source: `std::clamp(v, lo, hi)` on `float64`, modelled over the rationals. -/
def stdClampQ (v lo hi : ℚ) : ℚ :=
  if v < lo then lo else if hi < v then hi else v

/-! Section: Footer scroll operations (stickers_list_footer.cpp) -/

/-- Source: `StickersListFooter::checkDragging`: the new offset while dragging,
`std::clamp((rtl ? -1 : 1) * (downX - posX) + draggingStartX, 0, max)`. -/
def checkDraggingNewX
    (rtl : Bool) (mouseDownX mousePosX draggingStartX maxX : Int) : Int :=
  stdClampInt ((if rtl then -1 else 1) * (mouseDownX - mousePosX) + draggingStartX)
    0 maxX

/-- Source: `StickersListFooter::finishDragging`: the offset committed on release,
`std::clamp(draggingStartX + downX - posX, 0, max)`. -/
def finishDraggingNewX (draggingStartX mouseDownX mousePosX maxX : Int) : Int :=
  stdClampInt (draggingStartX + mouseDownX - mousePosX) 0 maxX

/-- Source: `StickersListFooter::scrollByWheelEvent`, `use` lambda: `used = now - delta`,
`next = std::clamp(used, 0, max)`; the unconsumed part of the delta is
dropped (only `next` is stored). -/
def wheelScrollNext (nowX delta maxX : Int) : Int :=
  stdClampInt (nowX - delta) 0 maxX

/-- Source: `StickersListFooter::setSelectedIcon`: the centering target
`std::clamp((iconsLeft + iconsWidthForCentering + iconsRight - width) / 2, 0, max)`
(C++ integer division truncates toward zero). -/
def selectedIconScrollTarget
    (iconsLeft iconsWidthForCentering iconsRight widthTotal maxX : Int) : Int :=
  stdClampInt (Int.tdiv (iconsLeft + iconsWidthForCentering + iconsRight - widthTotal) 2)
    0 maxX

/-- Source: `StickersListFooter::setSelectedSubicon`: the centering target
`std::clamp((subiconsWidthForCentering - subiconsWidth) / 2, 0, max)`. -/
def selectedSubiconScrollTarget
    (subiconsWidthForCentering subiconsWidth maxX : Int) : Int :=
  stdClampInt (Int.tdiv (subiconsWidthForCentering - subiconsWidth) 2) 0 maxX

/-! Section: Animated values (C7, C3)

Modelled from the spec: `anim::value` lives in the animation library outside
this excerpt; it holds a start value, a delta to the target and a current
value; `start` rebases at the current value towards a new target, `update`
sets the current value to `from + delta * easing(dt)`, and `finish` jumps to
the target. -/

/-- An `anim::value`: `fromV` plus `delta` is the target, `cur` the value in
effect. -/
structure AnimValue where
  fromV : ℚ
  delta : ℚ
  cur : ℚ
deriving Repr, DecidableEq

/-- Source: `anim::value(from, to)`. -/
def AnimValue.mk2 (a b : ℚ) : AnimValue :=
  ⟨a, b - a, a⟩

/-- Source: `anim::value::start(to)`: rebase from the current value to target `to`. -/
def AnimValue.start (v : AnimValue) (tgt : ℚ) : AnimValue :=
  ⟨v.cur, tgt - v.cur, v.cur⟩

/-- Source: `anim::value::update(dt, func)` with the easing already applied to `dt`. -/
def AnimValue.update (v : AnimValue) (eased : ℚ) : AnimValue :=
  { v with cur := v.fromV + v.delta * eased }

/-- Source: `anim::value::finish()`: the current value jumps to the target. -/
def AnimValue.finish (v : AnimValue) : AnimValue :=
  ⟨v.fromV + v.delta, 0, v.fromV + v.delta⟩

/-- Source: `anim::value::to()`. -/
def AnimValue.toV (v : AnimValue) : ℚ :=
  v.fromV + v.delta

/-- Modelled from the spec: the linear easing curve. -/
def animLinear (dt : ℚ) : ℚ := dt

/-- Modelled from the spec: the ease-out-cubic easing curve
`(dt - 1)^3 + 1`. -/
def animEaseOutCubic (dt : ℚ) : ℚ :=
  (dt - 1) * (dt - 1) * (dt - 1) + 1

/-- The animated part of `StickersListFooter::ScrollState`: the tick start
time and the three interpolated values (position, selection offset,
selection width). -/
structure ScrollAnim where
  animationStart : Int
  x : AnimValue
  selectionX : AnimValue
  selectionWidth : AnimValue
deriving Repr, DecidableEq

/-- Source: `StickersListFooter::ScrollState::animationCallback(now)` (lines 127-146):
with animations disabled `now` is advanced by the full duration; a zero
`animationStart` means no animation and returns false; otherwise
`dt = (now - animationStart) / duration`; at `dt >= 1` all three values
finish and the callback stops, else position eases linearly and the
selection extent and width ease out cubically, and the callback keeps
running. Returns the new state and whether the animation continues. -/
def scrollAnimationCallback
    (animDisabled : Bool) (duration : Int) (s : ScrollAnim) (now : Int) :
    ScrollAnim × Bool :=
  let now2 := if animDisabled then now + duration else now
  if s.animationStart = 0 then
    (s, false)
  else
    let dt : ℚ := ((now2 - s.animationStart : Int) : ℚ) / (duration : ℚ)
    if 1 ≤ dt then
      ({ s with
          animationStart := 0
          x := s.x.finish
          selectionX := s.selectionX.finish
          selectionWidth := s.selectionWidth.finish }, false)
    else
      ({ s with
          x := s.x.update (animLinear dt)
          selectionX := s.selectionX.update (animEaseOutCubic dt)
          selectionWidth := s.selectionWidth.update (animEaseOutCubic dt) }, true)

/-! Section: Footer selection (validateSelectedIcon, stickers_list_footer.cpp 419-453) -/

/-- Source constant `kEmojiSectionSetIdBase = 0x77FF'FFFF'FFFF'FFF0`. -/
def kEmojiSectionSetIdBase : Nat := 0x77FFFFFFFFFFFFF0

/-- Source: `EmojiSectionSetId(section) = base + section + 1`; sections are numbered
Recent = 0, People = 1, ..., Symbols = 7. -/
def EmojiSectionSetId (sec : Nat) : Nat :=
  kEmojiSectionSetIdBase + sec + 1

/-- Source: `RecentEmojiSectionSetId()`. -/
def RecentEmojiSectionSetId : Nat :=
  EmojiSectionSetId 0

/-- Source: `AllEmojiSectionSetId()` is the bare base. -/
def AllEmojiSectionSetId : Nat :=
  kEmojiSectionSetIdBase

/-- Source: `SetIdEmojiSection(id)`: some section index when `id` is in the emoji
section id range, none otherwise. -/
def SetIdEmojiSection (id : Nat) : Option Nat :=
  if id < RecentEmojiSectionSetId then none
  else if id - RecentEmojiSectionSetId ≤ 7 then some (id - RecentEmojiSectionSetId)
  else none

/-- Modelled from the spec: `Data::Stickers::RecentSetId`, a special set id
from the stickers data module which is not part of this excerpt; only its
distinctness from the other special ids matters here. -/
def RecentSetId : Nat := 0xFFFFFFFFFFFFFFFE

/-- Modelled from the spec: `Data::Stickers::FavedSetId`, a special set id
from the stickers data module which is not part of this excerpt; only its
distinctness from the other special ids matters here. -/
def FavedSetId : Nat := 0xFFFFFFFFFFFFFFFB

/-- Source: `isEmojiSection = emojiSection.has_value() && (emojiSection !=
EmojiSection::Recent)`. -/
def isEmojiSectionOf (setId : Nat) : Bool :=
  match SetIdEmojiSection setId with
  | none => false
  | some s => decide (s ≠ 0)

/-- The condition of the breaking branch of the `validateSelectedIcon` loop:
an exact id match, or the Faved icon when the Recent sticker set was asked. -/
def breakMatch (setId id : Nat) : Prop :=
  id = setId ∨ (id = FavedSetId ∧ setId = RecentSetId)

instance (setId id : Nat) : Decidable (breakMatch setId id) := by
  unfold breakMatch
  infer_instance

/-- Accumulators of the `validateSelectedIcon` loop, all starting at -1. -/
structure ScanResult where
  newSelected : Int
  newSubSelected : Int
  favedIconIndex : Int
deriving Repr, DecidableEq

/-- The `for` loop of `validateSelectedIcon` over the icon set ids, carrying
the current index `i`: the first `breakMatch` stops the loop selecting `i`;
a Faved icon records `favedIconIndex`; an All-Emoji icon, when the target is
a non-Recent emoji section, selects `i` and computes the sub-selection as
`setId - EmojiSectionSetId(People)` without stopping. -/
def validateScan (setId : Nat) (isEmoji : Bool) :
    List Nat → Int → ScanResult → ScanResult
  | [], _, acc => acc
  | id :: rest, i, acc =>
    if breakMatch setId id then
      { acc with newSelected := i }
    else if id = FavedSetId then
      validateScan setId isEmoji rest (i + 1) { acc with favedIconIndex := i }
    else if isEmoji = true ∧ id = AllEmojiSectionSetId then
      validateScan setId isEmoji rest (i + 1)
        { acc with
            newSelected := i
            newSubSelected := (setId : Int) - (EmojiSectionSetId 1 : Nat) }
    else
      validateScan setId isEmoji rest (i + 1) acc

/-- Source: `StickersListFooter::validateSelectedIcon(setId)`: the pair of indices
passed to `setSelectedIcon` and `setSelectedSubicon` (`newSelected >= 0 ?
newSelected : favedIconIndex >= 0 ? favedIconIndex : 0` and
`newSubSelected >= 0 ? newSubSelected : 0`). -/
def validateSelectedIcon (icons : List Nat) (setId : Nat) : Int × Int :=
  let r := validateScan setId (isEmojiSectionOf setId) icons 0 ⟨-1, -1, -1⟩
  (if 0 ≤ r.newSelected then r.newSelected
   else if 0 ≤ r.favedIconIndex then r.favedIconIndex else 0,
   if 0 ≤ r.newSubSelected then r.newSubSelected else 0)

/-- The index of the first icon the `validateSelectedIcon` loop breaks on
(exact match, or Faved while the Recent sticker set is requested). -/
def firstBreakIdx (setId : Nat) : List Nat → Option Nat
  | [] => none
  | id :: rest =>
    if breakMatch setId id then some 0
    else (firstBreakIdx setId rest).map (· + 1)

/-! Section: Photo tier resolution (history_view_photo.cpp) -/

/-- The four cached representations a `PhotoMedia` view can expose, each an
abstract bitmap id when present: `image(Large)`, `image(Thumbnail)`,
`image(Small)` and `thumbnailInline()`. -/
structure PhotoTiers where
  large : Option Nat
  thumbnail : Option Nat
  small : Option Nat
  thumbInline : Option Nat
deriving Repr, DecidableEq

/-- The spec-side resolution order, written from the spec sentence
"Large → Thumbnail → Small → inline-blurred → none", to be compared with
the selectors embedded from the source. -/
def orderedTierSelect (t : PhotoTiers) : Option Nat :=
  t.large <|> t.thumbnail <|> t.small <|> t.thumbInline

/-- Source: `Photo::paintUserpicFrame` pixmap choice (lines 406-423): Large not
blurred, else Thumbnail / Small / inline each blurred, else an empty pixmap;
the boolean marks whether the blurred variant of the args is used. -/
def paintUserpicPix (t : PhotoTiers) : Option (Nat × Bool) :=
  match t.large with
  | some l => some (l, false)
  | none =>
    match t.thumbnail with
    | some th => some (th, true)
    | none =>
      match t.small with
      | some s => some (s, true)
      | none =>
        match t.thumbInline with
        | some b => some (b, true)
        | none => none

/-- Modelled from the spec: `Image::BlankMedia()`, the fallback bitmap used
by `validateGroupedCache` when no representation exists at all. -/
def blankMediaId : Nat := 0

/-- Source: `Photo::validateGroupedCache` image choice (lines 696-704): Large, else
Thumbnail, else Small, else inline, else the blank media. -/
def groupedCacheImage (t : PhotoTiers) : Nat :=
  match t.large with
  | some l => l
  | none =>
    match t.thumbnail with
    | some th => th
    | none =>
      match t.small with
      | some s => s
      | none =>
        match t.thumbInline with
        | some b => b
        | none => blankMediaId

/-- Source: `Photo::validateGroupedCache` blur option: `Option::Blur` is set exactly
when the media is not `loaded()`. -/
def groupedCacheBlurred (loaded : Bool) : Bool :=
  !loaded

/-- Source: `Photo::prepareImageCache(QSize)` blurred-layer choice (lines 349-366):
the inline thumbnail first, else Thumbnail, else Small, else Large. -/
def prepareCacheBlurredLayer (t : PhotoTiers) : Option Nat :=
  match t.thumbInline with
  | some b => some b
  | none =>
    match t.thumbnail with
    | some th => some th
    | none =>
      match t.small with
      | some s => some s
      | none => t.large

/-! Section: Photo image-cache validation (validateImageCache, lines 321-340) -/

/-- An integer size, as `QSize`. -/
structure QSizeM where
  w : Int
  h : Int
deriving Repr, DecidableEq

/-- Source: `QSize * ratio`. -/
def scaleSize (s : QSizeM) (ratio : Int) : QSizeM :=
  ⟨s.w * ratio, s.h * ratio⟩

/-- An abstract `QImage`: its pixel size plus the data it was prepared from
(the requested geometry together with a stamp standing for the media
contents at preparation time). -/
structure QImageM where
  size : QSizeM
  content : QSizeM × Int × Int × Int × Nat
deriving Repr, DecidableEq

/-- The inputs `validateImageCache` is called with on a paint pass: the
output size, the rounding radius and corners (already as `int`), and
whether `image(PhotoSize::Large)` is currently present. -/
structure ImageCacheInputs where
  outer : QSizeM
  radius : Int
  corners : Int
  largePresent : Bool
deriving Repr, DecidableEq

/-- Source: `shouldBeBlurred = (large != nullptr) ? 0 : 1`. -/
def shouldBeBlurred (largePresent : Bool) : Int :=
  if largePresent then 0 else 1

/-- The mutable fields of `Photo` driving the cache guard: `_imageCache`,
`_imageCacheRoundRadius`, `_imageCacheRoundCorners`, `_imageCacheBlurred`. -/
structure PhotoCacheState where
  imageCache : QImageM
  cacheRadius : Int
  cacheCorners : Int
  cacheBlurred : Int
deriving Repr, DecidableEq

/-- Source: `Photo::prepareImageCache(outer, radius, corners)`, abstractly: an image
of pixel size `outer * ratio` whose contents are determined by the request
and by the media state (stamped by `mediaStamp`); the size guarantee is the
library contract of the image preparation helpers. -/
def prepareImageCacheM
    (ratio : Int) (inp : ImageCacheInputs) (mediaStamp : Nat) : QImageM :=
  { size := scaleSize inp.outer ratio
    content := (inp.outer, inp.radius, inp.corners, shouldBeBlurred inp.largePresent,
      mediaStamp) }

/-- Source: `Photo::validateImageCache` (lines 321-340): keep the cache untouched
when the cached image size equals `outer * ratio` and radius, corners and
blurred flag all match the recorded values; otherwise recompute and record.
The boolean reports whether a recomputation happened. -/
def validateImageCacheM
    (ratio : Int) (s : PhotoCacheState) (inp : ImageCacheInputs) (mediaStamp : Nat) :
    PhotoCacheState × Bool :=
  if s.imageCache.size = scaleSize inp.outer ratio
      ∧ s.cacheRadius = inp.radius
      ∧ s.cacheCorners = inp.corners
      ∧ s.cacheBlurred = shouldBeBlurred inp.largePresent then
    (s, false)
  else
    ({ imageCache := prepareImageCacheM ratio inp mediaStamp
       cacheRadius := inp.radius
       cacheCorners := inp.corners
       cacheBlurred := shouldBeBlurred inp.largePresent }, true)

/-! Section: Photo streaming state (handleStreamingError / playAnimation) -/

/-- The streaming-related state of a `Photo` element and its asset:
whether `_streamed` exists, the asset's video-playback-failed flag,
whether the asset has a video at all, and whether autoplay is enabled. -/
structure StreamState where
  streamed : Bool
  playbackFailed : Bool
  hasVideo : Bool
  autoplayEnabled : Bool
deriving Repr, DecidableEq

/-- Modelled from the spec: `PhotoData::videoCanBePlayed()` lives in the
photo data module outside this excerpt; per the spec a playback-failed asset
is permanently unplayable for the session, so it holds exactly when a video
exists and playback has not failed. -/
def videoCanBePlayed (s : StreamState) : Bool :=
  s.hasVideo && !s.playbackFailed

/-- Source: `Photo::handleStreamingError` (lines 763-766):
`_data->setVideoPlaybackFailed(); stopAnimation();` — the asset is marked
failed and the streamed player destroyed. -/
def handleStreamingError (s : StreamState) : StreamState :=
  { s with playbackFailed := true, streamed := false }

/-- Source: `Photo::playAnimation(autoplay)` (lines 791-810), with
`createSucceeds` standing for `createStreamingObjects()` (which destroys the
just-created player and returns false when the streaming instance is
invalid): on creation failure the asset is marked playback-failed. -/
def playAnimation (s : StreamState) (autoplay : Bool) (createSucceeds : Bool) :
    StreamState :=
  if s.streamed && autoplay then s
  else if s.streamed && s.autoplayEnabled then s
  else if s.streamed then { s with streamed := false }
  else if videoCanBePlayed s then
    if createSucceeds then { s with streamed := true }
    else { s with streamed := false, playbackFailed := true }
  else s

/-- Source: `Photo::paintUserpicFrame` autoplay check (lines 372-375):
`autoplay = videoCanBePlayed() && videoAutoplayEnabled()`;
`startPlay = autoplay && !_streamed` triggers `playAnimation(true)`. -/
def paintUserpicStartPlay (s : StreamState) : Bool :=
  videoCanBePlayed s && s.autoplayEnabled && !s.streamed

/-! Section: Grouped sizes (C8) -/

/-- An abstract caption: only its (layout-determined) height as a function
of the available width matters here. -/
structure CaptionM where
  countHeight : Int → Int

/-- The style values entering the grouped-size computation; the same `st`
(thumb or plain grouped layout) is selected identically by both functions. -/
structure GroupedStyle where
  paddingTop : Int
  thumbSize : Int
  paddingBottom : Int
  msgPaddingLeft : Int
  msgPaddingRight : Int

/-- A `Document` element as far as the grouped-size functions read it:
the selected grouped layout style, the optional caption, and the stored
`maxWidth()` computed by `countOptimalSize`. -/
structure DocumentGrouping where
  st : GroupedStyle
  captioned : Option CaptionM
  storedMaxWidth : Int

/-- The height shared by `Document::sizeForGrouping` and
`Document::sizeForGroupingOptimal`: paddings plus thumb size, plus the
caption height at `w - msgPadding.left() - msgPadding.right()`. -/
def docGroupedHeight (d : DocumentGrouping) (w : Int) : Int :=
  d.st.paddingTop + d.st.thumbSize + d.st.paddingBottom +
    (match d.captioned with
     | some c => c.countHeight (w - d.st.msgPaddingLeft - d.st.msgPaddingRight)
     | none => 0)

/-- Source: `Document::sizeForGroupingOptimal(maxWidth)` (lines 1167-1178): returns
the argument as width. -/
def documentSizeForGroupingOptimal (d : DocumentGrouping) (mw : Int) : Int × Int :=
  (mw, docGroupedHeight d mw)

/-- Source: `Document::sizeForGrouping(width)` (lines 1180-1191): returns the stored
`maxWidth()` as width, the caption height still computed from the argument. -/
def documentSizeForGrouping (d : DocumentGrouping) (w : Int) : Int × Int :=
  (d.storedMaxWidth, docGroupedHeight d w)

/-- Source: `Photo::sizeForGroupingOptimal(maxWidth)` (part_001 lines 505-509):
the photo's own dimensions, floored at 1, ignoring the argument. -/
def photoSizeForGroupingOptimal (dataW dataH : Int) (_mw : Int) : Int × Int :=
  (max dataW 1, max dataH 1)

/-- Source: `Photo::sizeForGrouping(width)` (part_001 lines 511-513): delegates to
`sizeForGroupingOptimal`. -/
def photoSizeForGrouping (dataW dataH : Int) (w : Int) : Int × Int :=
  photoSizeForGroupingOptimal dataW dataH w

/-! Section: Voice seek proportion (C9) -/

/-- Source: `QRect(x, y, w, h).contains(point)` for integer rectangles: Qt treats
the right and bottom edges as `x + w - 1` and `y + h - 1`. -/
def rectContainsPt (x y w h px py : Int) : Prop :=
  x ≤ px ∧ px ≤ x + w - 1 ∧ y ≤ py ∧ py ≤ y + h - 1

instance (x y w h px py : Int) : Decidable (rectContainsPt x y w h px py) := by
  unfold rectContainsPt
  infer_instance

/-- Source: `Document::textState` voice branch (lines 897-907): the initial seeking
value `(point.x() - nameleft) / float64(namewidth)`, modelled over ℚ. -/
def voiceSeekingStart (px nameleft namewidth : Int) : ℚ :=
  ((px - nameleft : Int) : ℚ) / ((namewidth : Int) : ℚ)

/-- Source: `Document::updatePressed` (lines 963-979): the seeking value is
`std::clamp((point.x() - nameleft) / float64(width - nameleft - nameright), 0., 1.)`. -/
def voiceSeekingCurrent (px nameleft widthTotal nameright : Int) : ℚ :=
  stdClampQ (((px - nameleft : Int) : ℚ) / ((widthTotal - nameleft - nameright : Int) : ℚ))
    0 1

/-! Section: Helper lemmas -/

theorem stdClampInt_bounds (v lo hi : Int) (h : lo ≤ hi) :
    lo ≤ stdClampInt v lo hi ∧ stdClampInt v lo hi ≤ hi := by
  unfold stdClampInt
  split_ifs <;> omega

theorem stdClampQ_bounds (v lo hi : ℚ) (h : lo ≤ hi) :
    lo ≤ stdClampQ v lo hi ∧ stdClampQ v lo hi ≤ hi := by
  unfold stdClampQ
  split_ifs with h1 h2
  · exact ⟨le_refl lo, h⟩
  · exact ⟨h, le_refl hi⟩
  · exact ⟨not_lt.mp h1, not_lt.mp h2⟩

theorem animValue_start_finish_cur (v : AnimValue) (t : ℚ) :
    ((v.start t).finish).cur = t := by
  simp [AnimValue.start, AnimValue.finish]

/-! Section: Claim theorems -/

/-- Claim C3: for both footer scroll axes, after any drag release, wheel
scroll, or animated selection-centering completes, the scroll offset `x`
satisfies `0 <= x <= max`; a wheel delta larger than the remaining room
clamps the offset to the bound and the excess delta is dropped. -/
theorem footer_scroll_offset_clamped
    (rtl : Bool) (downX posX startX nowX delta il iwc ir wt swc sw maxX : Int)
    (v : AnimValue) (hmax : 0 ≤ maxX) :
    (0 ≤ checkDraggingNewX rtl downX posX startX maxX
      ∧ checkDraggingNewX rtl downX posX startX maxX ≤ maxX)
    ∧ (0 ≤ finishDraggingNewX startX downX posX maxX
      ∧ finishDraggingNewX startX downX posX maxX ≤ maxX)
    ∧ (0 ≤ wheelScrollNext nowX delta maxX ∧ wheelScrollNext nowX delta maxX ≤ maxX)
    ∧ (maxX < nowX - delta → wheelScrollNext nowX delta maxX = maxX)
    ∧ (nowX - delta < 0 → wheelScrollNext nowX delta maxX = 0)
    ∧ (0 ≤ selectedIconScrollTarget il iwc ir wt maxX
      ∧ selectedIconScrollTarget il iwc ir wt maxX ≤ maxX)
    ∧ (0 ≤ selectedSubiconScrollTarget swc sw maxX
      ∧ selectedSubiconScrollTarget swc sw maxX ≤ maxX)
    ∧ ((v.start ((selectedIconScrollTarget il iwc ir wt maxX : Int) : ℚ)).finish).cur
        = ((selectedIconScrollTarget il iwc ir wt maxX : Int) : ℚ) := by
  refine ⟨stdClampInt_bounds _ _ _ hmax, stdClampInt_bounds _ _ _ hmax,
    stdClampInt_bounds _ _ _ hmax, ?_, ?_,
    stdClampInt_bounds _ _ _ hmax, stdClampInt_bounds _ _ _ hmax,
    animValue_start_finish_cur _ _⟩
  · intro h
    unfold wheelScrollNext stdClampInt
    split_ifs <;> omega
  · intro h
    unfold wheelScrollNext stdClampInt
    split_ifs <;> omega

/-- Witness for C3 at a concrete input. -/
theorem footer_scroll_offset_clamped_witness :
    (0 : Int) ≤ 10
    ∧ (0 ≤ wheelScrollNext 3 100 10 ∧ wheelScrollNext 3 100 10 ≤ 10)
    ∧ wheelScrollNext 3 100 10 = 0 :=
  ⟨by decide,
    (footer_scroll_offset_clamped false 0 0 0 3 100 0 0 0 0 0 0 10 ⟨0, 0, 0⟩
      (by decide)).2.2.1,
    (footer_scroll_offset_clamped false 0 0 0 3 100 0 0 0 0 0 0 10 ⟨0, 0, 0⟩
      (by decide)).2.2.2.2.1 (by decide)⟩

/-- Claim C9: while a voice-message seek is in progress the seeking
proportion stays in `[0, 1]`: the start value is derived from a press point
`(sx, sy)` inside the waveform rectangle (and so lies in `[0, 1]`), and a
pointer move to an arbitrary point with x-coordinate `mx` — constrained by
nothing, so including positions left of, right of, or entirely outside the
waveform and the element — clamps
`(mx - nameleft) / (width - nameleft - nameright)` to `[0, 1]`. -/
theorem voice_seek_proportion_bounded
    (sx sy nameleft nametop namewidth hgt mx widthTotal nameright : Int)
    (hin : rectContainsPt nameleft nametop namewidth hgt sx sy) :
    (0 ≤ voiceSeekingStart sx nameleft namewidth
      ∧ voiceSeekingStart sx nameleft namewidth ≤ 1)
    ∧ (0 ≤ voiceSeekingCurrent mx nameleft widthTotal nameright
      ∧ voiceSeekingCurrent mx nameleft widthTotal nameright ≤ 1) := by
  obtain ⟨h1, h2, -, -⟩ := hin
  constructor
  · unfold voiceSeekingStart
    have hw : (1 : Int) ≤ namewidth := by omega
    have hwq : (0 : ℚ) < ((namewidth : Int) : ℚ) := by
      exact_mod_cast lt_of_lt_of_le Int.zero_lt_one hw
    constructor
    · apply div_nonneg _ (le_of_lt hwq)
      exact_mod_cast sub_nonneg.mpr (show (nameleft : ℚ) ≤ (sx : ℚ) by exact_mod_cast h1)
    · rw [div_le_one hwq]
      exact_mod_cast show sx - nameleft ≤ namewidth by omega
  · exact stdClampQ_bounds _ _ _ (by norm_num)

/-- Witness for C9 at a concrete input: the press point (25, 12) lies inside
the waveform rectangle (10, 5, 40, 20), and the subsequent move point has
`mx = -50`, left of the waveform and outside the element, where the raw
proportion would be negative and the clamp still lands in `[0, 1]`. -/
theorem voice_seek_proportion_bounded_witness :
    rectContainsPt 10 5 40 20 25 12
    ∧ (0 ≤ voiceSeekingStart 25 10 40 ∧ voiceSeekingStart 25 10 40 ≤ 1)
    ∧ (0 ≤ voiceSeekingCurrent (-50) 10 100 10
      ∧ voiceSeekingCurrent (-50) 10 100 10 ≤ 1) :=
  ⟨by decide,
    (voice_seek_proportion_bounded 25 12 10 5 40 20 (-50) 100 10 (by decide)).1,
    (voice_seek_proportion_bounded 25 12 10 5 40 20 (-50) 100 10 (by decide)).2⟩

/-- Claim C8, counterexample: for a Document element whose stored
`maxWidth()` is 100 and a requested width of 50, `sizeForGrouping` and
`sizeForGroupingOptimal` return different pairs (widths 100 versus 50). -/
theorem document_sizeForGrouping_differs :
    documentSizeForGrouping ⟨⟨0, 0, 0, 0, 0⟩, none, 100⟩ 50
      ≠ documentSizeForGroupingOptimal ⟨⟨0, 0, 0, 0, 0⟩, none, 100⟩ 50 := by
  simp [documentSizeForGrouping, documentSizeForGroupingOptimal]

/-- Claim C8, amended: for every Photo element `sizeForGrouping` and
`sizeForGroupingOptimal` agree at every width; for every Document element
the two heights agree at every width, but `sizeForGrouping` returns the
stored `maxWidth()` as width while `sizeForGroupingOptimal` returns its
argument, so the pairs are equal exactly when the requested width equals
the stored `maxWidth()`. -/
theorem sizeForGrouping_relation (dataW dataH w : Int) (d : DocumentGrouping) :
    photoSizeForGrouping dataW dataH w = photoSizeForGroupingOptimal dataW dataH w
    ∧ (documentSizeForGrouping d w).2 = (documentSizeForGroupingOptimal d w).2
    ∧ (documentSizeForGrouping d w = documentSizeForGroupingOptimal d w
        ↔ d.storedMaxWidth = w) := by
  refine ⟨rfl, rfl, ?_⟩
  unfold documentSizeForGrouping documentSizeForGroupingOptimal
  constructor
  · intro h
    exact (Prod.mk.injEq _ _ _ _).mp h |>.1
  · intro h
    rw [h]

/-- Claim C2, counterexample: with the Large image absent but both the
Thumbnail image and the inline thumbnail present, the bubble-photo cache
picks the inline thumbnail for its displayed blurred layer, not the
higher Thumbnail tier demanded by the fixed resolution order. -/
theorem prepareImageCache_blur_prefers_inline :
    prepareCacheBlurredLayer ⟨none, some 1, none, some 2⟩ = some 2
    ∧ orderedTierSelect ⟨none, some 1, none, some 2⟩ = some 1
    ∧ prepareCacheBlurredLayer ⟨none, some 1, none, some 2⟩
        ≠ orderedTierSelect ⟨none, some 1, none, some 2⟩ := by
  refine ⟨rfl, rfl, ?_⟩
  decide

/-- Claim C2, amended: the userpic frame and the grouped cache resolve
bitmaps in the fixed order Large → Thumbnail → Small → inline → none, any
tier below Large rendered blurred (for the grouped cache, blur is keyed on
`loaded()`, which holds exactly when the Large image is available); the
bubble-photo redraw cache instead displays the Large image when present and
otherwise picks its blurred layer preferring the inline thumbnail:
inline → Thumbnail → Small → Large. -/
theorem photo_tier_resolution_order (t : PhotoTiers) (loaded : Bool)
    (hl : loaded = t.large.isSome) :
    paintUserpicPix t = (orderedTierSelect t).map (fun v => (v, !t.large.isSome))
    ∧ groupedCacheImage t = (orderedTierSelect t).getD blankMediaId
    ∧ groupedCacheBlurred loaded = !t.large.isSome
    ∧ prepareCacheBlurredLayer t
        = (t.thumbInline <|> t.thumbnail <|> t.small <|> t.large) := by
  obtain ⟨l, th, sm, bi⟩ := t
  subst hl
  refine ⟨?_, ?_, rfl, ?_⟩ <;>
    cases l <;> cases th <;> cases sm <;> cases bi <;>
      simp [paintUserpicPix, orderedTierSelect, groupedCacheImage,
        prepareCacheBlurredLayer, groupedCacheBlurred, Option.orElse]

/-- Witness for C2 (amended) at a concrete input. -/
theorem photo_tier_resolution_order_witness :
    paintUserpicPix ⟨none, some 7, none, some 2⟩
        = (orderedTierSelect ⟨none, some 7, none, some 2⟩).map (fun v => (v, true)) :=
  (photo_tier_resolution_order ⟨none, some 7, none, some 2⟩ false rfl).1

/-- Claim C6: a streaming error, or a failure to create the streaming
objects, leaves the Photo element stopped (no streamed player) with the
asset marked video-playback-failed, and once the asset is marked failed the
autoplay check never starts a new stream and `playAnimation` on autoplay
leaves the state unchanged. -/
theorem streaming_error_stops_and_marks_failed (s : StreamState)
    (createSucceeds : Bool) :
    ((handleStreamingError s).streamed = false
      ∧ (handleStreamingError s).playbackFailed = true)
    ∧ (s.streamed = false → videoCanBePlayed s = true →
        (playAnimation s true false).streamed = false
        ∧ (playAnimation s true false).playbackFailed = true)
    ∧ (s.playbackFailed = true →
        paintUserpicStartPlay s = false
        ∧ playAnimation s true createSucceeds = s) := by
  obtain ⟨st, pf, hv, ae⟩ := s
  refine ⟨⟨rfl, rfl⟩, ?_, ?_⟩
  · intro hs hc
    subst hs
    simp [playAnimation, hc]
  · intro hf
    subst hf
    cases st <;> cases hv <;> cases ae <;>
      simp [paintUserpicStartPlay, playAnimation, videoCanBePlayed]

/-- Witness for C6 at a concrete input. -/
theorem streaming_error_stops_and_marks_failed_witness :
    (playAnimation ⟨false, false, true, true⟩ true false).streamed = false
    ∧ (playAnimation ⟨false, false, true, true⟩ true false).playbackFailed = true :=
  (streaming_error_stops_and_marks_failed ⟨false, false, true, true⟩ false).2.1
    rfl rfl

theorem scaleSize_inj (a b : QSizeM) (r : Int) (hr : r ≠ 0)
    (h : scaleSize a r = scaleSize b r) : a = b := by
  obtain ⟨aw, ah⟩ := a
  obtain ⟨bw, bh⟩ := b
  simp only [scaleSize, QSizeM.mk.injEq] at h ⊢
  exact ⟨mul_right_cancel₀ hr h.1, mul_right_cancel₀ hr h.2⟩

/-- Claim C5: the redraw image cache is keyed by the 4-tuple (output size,
rounding radius, rounding corners, blurred-or-not): given a state whose
recorded values come from a previous computation with parameters
`(prevOuter, prevRadius, prevCorners, prevBlurred)`, `validateImageCache`
recomputes if and only if at least one of the four current values differs,
and otherwise returns the state, cached image included, unchanged. -/
theorem validateImageCache_pure_key
    (ratio : Int) (s : PhotoCacheState) (prevOuter : QSizeM)
    (prevRadius prevCorners prevBlurred : Int)
    (inp : ImageCacheInputs) (mediaStamp : Nat)
    (hr : 1 ≤ ratio)
    (hsz : s.imageCache.size = scaleSize prevOuter ratio)
    (hrad : s.cacheRadius = prevRadius)
    (hcor : s.cacheCorners = prevCorners)
    (hbl : s.cacheBlurred = prevBlurred) :
    ((validateImageCacheM ratio s inp mediaStamp).2 = true
      ↔ (inp.outer ≠ prevOuter ∨ inp.radius ≠ prevRadius
          ∨ inp.corners ≠ prevCorners
          ∨ shouldBeBlurred inp.largePresent ≠ prevBlurred))
    ∧ ((validateImageCacheM ratio s inp mediaStamp).2 = false
        → (validateImageCacheM ratio s inp mediaStamp).1 = s) := by
  have hrne : ratio ≠ 0 := by omega
  unfold validateImageCacheM
  split_ifs with hcond
  · obtain ⟨c1, c2, c3, c4⟩ := hcond
    have houter : inp.outer = prevOuter := by
      apply scaleSize_inj _ _ _ hrne
      rw [← c1, hsz]
    have hradius : inp.radius = prevRadius := by rw [← c2, hrad]
    have hcorners : inp.corners = prevCorners := by rw [← c3, hcor]
    have hblv : shouldBeBlurred inp.largePresent = prevBlurred := by rw [← c4, hbl]
    refine ⟨⟨fun hfalse => hfalse.elim, ?_⟩, fun _ => rfl⟩
    rintro (h | h | h | h)
    · exact absurd houter h
    · exact absurd hradius h
    · exact absurd hcorners h
    · exact absurd hblv h
  · refine ⟨⟨fun _ => ?_, fun _ => rfl⟩, fun h => h.elim⟩
    by_contra hall
    push_neg at hall
    obtain ⟨h1, h2, h3, h4⟩ := hall
    exact hcond ⟨by rw [hsz, h1], by rw [hrad, h2], by rw [hcor, h3],
      by rw [hbl, h4]⟩

/-- Witness for C5 at a concrete input: same 4-tuple, no recomputation. -/
theorem validateImageCache_pure_key_witness :
    (validateImageCacheM 2
        ⟨⟨⟨20, 12⟩, (⟨10, 6⟩, 1, 3, 0, 0)⟩, 1, 3, 0⟩
        ⟨⟨10, 6⟩, 1, 3, true⟩ 5).2 = false
    ∧ (validateImageCacheM 2
        ⟨⟨⟨20, 12⟩, (⟨10, 6⟩, 1, 3, 0, 0)⟩, 1, 3, 0⟩
        ⟨⟨10, 6⟩, 1, 3, true⟩ 5).1
      = ⟨⟨⟨20, 12⟩, (⟨10, 6⟩, 1, 3, 0, 0)⟩, 1, 3, 0⟩ := by
  have h := validateImageCache_pure_key 2
    ⟨⟨⟨20, 12⟩, (⟨10, 6⟩, 1, 3, 0, 0)⟩, 1, 3, 0⟩
    ⟨10, 6⟩ 1 3 0 ⟨⟨10, 6⟩, 1, 3, true⟩ 5
    (by decide) (by decide) rfl rfl rfl
  have hfalse : (validateImageCacheM 2
      ⟨⟨⟨20, 12⟩, (⟨10, 6⟩, 1, 3, 0, 0)⟩, 1, 3, 0⟩
      ⟨⟨10, 6⟩, 1, 3, true⟩ 5).2 = false := by decide
  exact ⟨hfalse, h.2 hfalse⟩

theorem scrollAnimationCallback_enabled_eq (duration : Int) (s : ScrollAnim)
    (now : Int) :
    scrollAnimationCallback false duration s now
      = if s.animationStart = 0 then (s, false)
        else if (1 : ℚ) ≤ ((now - s.animationStart : Int) : ℚ) / (duration : ℚ) then
          ({ s with
              animationStart := 0
              x := s.x.finish
              selectionX := s.selectionX.finish
              selectionWidth := s.selectionWidth.finish }, false)
        else
          ({ s with
              x := s.x.update
                (animLinear (((now - s.animationStart : Int) : ℚ) / (duration : ℚ)))
              selectionX := s.selectionX.update
                (animEaseOutCubic (((now - s.animationStart : Int) : ℚ) / (duration : ℚ)))
              selectionWidth := s.selectionWidth.update
                (animEaseOutCubic (((now - s.animationStart : Int) : ℚ) / (duration : ℚ)))
           }, true) := by
  simp [scrollAnimationCallback]

/-- Claim C7: on a tick at time `now` (animations enabled, an animation in
progress), the callback computes `dt = (now - animationStart) / duration`;
if `dt >= 1` every interpolated value jumps to its target, the start time
resets and the callback reports the animation finished; otherwise the
position value eases linearly, the selection offset and width ease out
cubically, and the callback keeps running. -/
theorem scroll_animation_tick (duration : Int) (s : ScrollAnim) (now : Int)
    (hstart : s.animationStart ≠ 0) :
    ((1 : ℚ) ≤ ((now - s.animationStart : Int) : ℚ) / (duration : ℚ) →
      (scrollAnimationCallback false duration s now).1.x.cur = s.x.toV
      ∧ (scrollAnimationCallback false duration s now).1.selectionX.cur
          = s.selectionX.toV
      ∧ (scrollAnimationCallback false duration s now).1.selectionWidth.cur
          = s.selectionWidth.toV
      ∧ (scrollAnimationCallback false duration s now).1.animationStart = 0
      ∧ (scrollAnimationCallback false duration s now).2 = false)
    ∧ (((now - s.animationStart : Int) : ℚ) / (duration : ℚ) < 1 →
      (scrollAnimationCallback false duration s now).1.x.cur
          = s.x.fromV + s.x.delta
            * animLinear (((now - s.animationStart : Int) : ℚ) / (duration : ℚ))
      ∧ (scrollAnimationCallback false duration s now).1.selectionX.cur
          = s.selectionX.fromV + s.selectionX.delta
            * animEaseOutCubic (((now - s.animationStart : Int) : ℚ) / (duration : ℚ))
      ∧ (scrollAnimationCallback false duration s now).1.selectionWidth.cur
          = s.selectionWidth.fromV + s.selectionWidth.delta
            * animEaseOutCubic (((now - s.animationStart : Int) : ℚ) / (duration : ℚ))
      ∧ (scrollAnimationCallback false duration s now).2 = true) := by
  rw [scrollAnimationCallback_enabled_eq, if_neg hstart]
  constructor
  · intro hdt
    rw [if_pos hdt]
    exact ⟨rfl, rfl, rfl, rfl, rfl⟩
  · intro hdt
    rw [if_neg (not_le.mpr hdt)]
    exact ⟨rfl, rfl, rfl, rfl⟩

/-- Witness for C7 at a concrete input: `dt = 3/2`, all values land on their
targets and the callback stops. -/
theorem scroll_animation_tick_witness :
    (scrollAnimationCallback false 10 ⟨5, ⟨0, 4, 0⟩, ⟨1, 2, 1⟩, ⟨3, 1, 3⟩⟩ 20).1.x.cur
        = (4 : ℚ)
    ∧ (scrollAnimationCallback false 10 ⟨5, ⟨0, 4, 0⟩, ⟨1, 2, 1⟩, ⟨3, 1, 3⟩⟩ 20).2
        = false := by
  have h := (scroll_animation_tick 10 ⟨5, ⟨0, 4, 0⟩, ⟨1, 2, 1⟩, ⟨3, 1, 3⟩⟩ 20
    (by decide)).1 (by norm_num)
  exact ⟨h.1.trans (by norm_num [AnimValue.toV]), h.2.2.2.2⟩

/-- Claim C10: `PaintWaveform` is total and never reads outside the
waveform: when voice data is absent, the waveform empty, or its first
sample negative, the loop runs over `kWaveformSamplesCount` zero samples
and reads no array element; otherwise the loop runs over the real waveform
and every read index lies in `[0, N)`. -/
theorem paintWaveform_placeholder_safety (vd : Option VoiceData) :
    ((vd = none
        ∨ (∃ v, vd = some v ∧ v.waveform = [])
        ∨ (∃ v x rest, vd = some v ∧ v.waveform = x :: rest ∧ x < 0))
      → effectiveSamples vd = List.replicate kWaveformSamplesCount 0
        ∧ paintWaveformReads vd = [])
    ∧ (∀ v x rest, vd = some v → v.waveform = x :: rest → 0 ≤ x →
        effectiveSamples vd = v.waveform
        ∧ paintWaveformReads vd = List.range v.waveform.length
        ∧ ∀ i ∈ paintWaveformReads vd, i < v.waveform.length) := by
  constructor
  · intro h
    rcases h with h | ⟨v, hv, hw⟩ | ⟨v, x, rest, hv, hw, hx⟩
    · subst h
      exact ⟨rfl, rfl⟩
    · subst hv
      simp [effectiveSamples, paintWaveformReads, selectWaveform, hw]
    · subst hv
      simp [effectiveSamples, paintWaveformReads, selectWaveform, hw, hx]
  · intro v x rest hv hw hx
    subst hv
    have hsel : selectWaveform (some v) = some v.waveform := by
      simp [selectWaveform, hw, not_lt.mpr hx]
    refine ⟨?_, ?_, ?_⟩
    · simp [effectiveSamples, hsel]
    · simp [paintWaveformReads, hsel]
    · intro i hi
      simp [paintWaveformReads, hsel, List.mem_range] at hi
      exact hi

/-- Witness for C10 at concrete inputs: a valid waveform is used as is with
in-range reads, and a negative-first-sample waveform falls back to the
placeholder. -/
theorem paintWaveform_placeholder_safety_witness :
    (effectiveSamples (some ⟨[3, 1], 5⟩) = [3, 1]
      ∧ paintWaveformReads (some ⟨[3, 1], 5⟩) = List.range 2
      ∧ ∀ i ∈ paintWaveformReads (some ⟨[3, 1], 5⟩), i < 2)
    ∧ effectiveSamples (some ⟨[-1, 7], 7⟩)
        = List.replicate kWaveformSamplesCount 0 :=
  ⟨(paintWaveform_placeholder_safety (some ⟨[3, 1], 5⟩)).2 ⟨[3, 1], 5⟩ 3 [1]
      rfl rfl (by decide),
    ((paintWaveform_placeholder_safety (some ⟨[-1, 7], 7⟩)).1
      (Or.inr (Or.inr ⟨⟨[-1, 7], 7⟩, -1, [7], rfl, rfl, by decide⟩))).1⟩

theorem wfFold_invariant (N c : Nat) (hc : 1 ≤ c) (hcN : c ≤ N) :
    ∀ (l : List Int) (s : WfState), s.sum < N → s.pending.length ≤ s.sum →
      (l.foldl (wfStep N c) s).sum < N
      ∧ (l.foldl (wfStep N c) s).pending.length ≤ (l.foldl (wfStep N c) s).sum
      ∧ (l.foldl (wfStep N c) s).sum + (l.foldl (wfStep N c) s).buckets.length * N
          = s.sum + s.buckets.length * N + l.length * c
      ∧ (l.foldl (wfStep N c) s).buckets.join ++ (l.foldl (wfStep N c) s).pending
          = s.buckets.join ++ s.pending ++ l := by
  intro l
  induction l with
  | nil =>
    intro s h1 h2
    simpa using ⟨h1, h2⟩
  | cons v rest ih =>
    intro s h1 h2
    rw [List.foldl_cons]
    by_cases hlt : s.sum + c < N
    · have hstep : wfStep N c s v
          = ⟨s.sum + c, s.pending ++ [v], s.buckets⟩ := by
        simp [wfStep, hlt]
      rw [hstep]
      obtain ⟨q1, q2, q3, q4⟩ := ih ⟨s.sum + c, s.pending ++ [v], s.buckets⟩
        (show s.sum + c < N from hlt)
        (show (s.pending ++ [v]).length ≤ s.sum + c by simp; omega)
      refine ⟨q1, q2, ?_, ?_⟩
      · rw [q3]
        simp only [List.length_cons]
        ring
      · rw [q4]
        simp
    · have hge : N ≤ s.sum + c := not_lt.mp hlt
      by_cases hhalf : s.sum + c - N < (c + 1) / 2
      · have hstep : wfStep N c s v
            = ⟨s.sum + c - N, [], s.buckets ++ [s.pending ++ [v]]⟩ := by
          simp [wfStep, hlt, hhalf]
        rw [hstep]
        obtain ⟨q1, q2, q3, q4⟩ :=
          ih ⟨s.sum + c - N, [], s.buckets ++ [s.pending ++ [v]]⟩
            (show s.sum + c - N < N by omega)
            (show ([] : List Int).length ≤ s.sum + c - N by simp)
        refine ⟨q1, q2, ?_, ?_⟩
        · rw [q3]
          show s.sum + c - N + (s.buckets ++ [s.pending ++ [v]]).length * N
              + rest.length * c
            = s.sum + s.buckets.length * N + (v :: rest).length * c
          have hlen : (s.buckets ++ [s.pending ++ [v]]).length
              = s.buckets.length + 1 := by simp
          rw [hlen, List.length_cons, Nat.succ_mul, Nat.succ_mul]
          omega
        · rw [q4]
          simp
      · have hstep : wfStep N c s v
            = ⟨s.sum + c - N, [v], s.buckets ++ [s.pending]⟩ := by
          simp [wfStep, hlt, hhalf]
        rw [hstep]
        obtain ⟨q1, q2, q3, q4⟩ :=
          ih ⟨s.sum + c - N, [v], s.buckets ++ [s.pending]⟩
            (show s.sum + c - N < N by omega)
            (show ([v] : List Int).length ≤ s.sum + c - N by simp; omega)
        refine ⟨q1, q2, ?_, ?_⟩
        · rw [q3]
          show s.sum + c - N + (s.buckets ++ [s.pending]).length * N
              + rest.length * c
            = s.sum + s.buckets.length * N + (v :: rest).length * c
          have hlen : (s.buckets ++ [s.pending]).length
              = s.buckets.length + 1 := by simp
          rw [hlen, List.length_cons, Nat.succ_mul, Nat.succ_mul]
          omega
        · rw [q4]
          simp

theorem wf_buckets_partition (wf : List Int) (c : Nat) (hne : wf ≠ [])
    (hc : 1 ≤ c) (hcN : c ≤ wf.length) :
    (paintWaveformBuckets wf c).buckets.length = c
    ∧ (paintWaveformBuckets wf c).buckets.join = wf
    ∧ (paintWaveformBuckets wf c).pending = [] := by
  have hN : 0 < wf.length := List.length_pos.mpr hne
  have key := wfFold_invariant wf.length c hc hcN wf ⟨0, [], []⟩ hN (by simp)
  rw [show List.foldl (wfStep wf.length c) ⟨0, [], []⟩ wf
      = paintWaveformBuckets wf c from rfl] at key
  obtain ⟨q1, q2, q3, q4⟩ := key
  have q3c : (paintWaveformBuckets wf c).sum
      + (paintWaveformBuckets wf c).buckets.length * wf.length
      = c * wf.length := by
    rw [mul_comm c wf.length]
    simpa using q3
  have hLc : (paintWaveformBuckets wf c).buckets.length ≤ c := by
    have hle : (paintWaveformBuckets wf c).buckets.length * wf.length
        ≤ c * wf.length := by omega
    exact Nat.le_of_mul_le_mul_right hle hN
  have hcL : c ≤ (paintWaveformBuckets wf c).buckets.length := by
    by_contra hlt
    push_neg at hlt
    have h2 : ((paintWaveformBuckets wf c).buckets.length + 1) * wf.length
        ≤ c * wf.length := Nat.mul_le_mul_right wf.length (by omega)
    rw [Nat.succ_mul] at h2
    omega
  have hL : (paintWaveformBuckets wf c).buckets.length = c :=
    Nat.le_antisymm hLc hcL
  have hsum0 : (paintWaveformBuckets wf c).sum = 0 := by
    rw [hL] at q3c
    omega
  have hpend : (paintWaveformBuckets wf c).pending = [] := by
    exact List.eq_nil_of_length_eq_zero (by omega)
  refine ⟨hL, ?_, hpend⟩
  have hq4 : (paintWaveformBuckets wf c).buckets.join
      ++ (paintWaveformBuckets wf c).pending = wf := by
    simpa using q4
  rw [hpend, List.append_nil] at hq4
  exact hq4

/-- Claim C1, counterexample: for the one-sample waveform `[5]` (first
sample non-negative) and `availableWidth = 0` (with bar width 2 and skip 1)
the loop draws `min(0 / 3, 1) = 0` bars — matching the claimed bar count —
but the sample is consumed by no bucket at all, so the partition part of
the claim fails for this `availableWidth`. -/
theorem paintWaveform_zero_width_drops_samples :
    ¬ ((paintWaveformRun (some ⟨[5], 5⟩) 0 2 1).buckets.length = barCountOf 0 2 1 1
        ∧ (paintWaveformRun (some ⟨[5], 5⟩) 0 2 1).buckets.join = [5])
    ∧ (paintWaveformRun (some ⟨[5], 5⟩) 0 2 1).buckets = []
    ∧ (paintWaveformRun (some ⟨[5], 5⟩) 0 2 1).pending = [5] := by
  decide

/-- Claim C1, amended: for every voice waveform of length `N >= 1` whose
first sample is non-negative, and every `availableWidth` of at least one
bar (`availableWidth / (barWidth + barSkip) >= 1`), `PaintWaveform` draws
exactly `barCount = min(availableWidth / (barWidth + barSkip), N)` bars via
cumulative-bucket max-aggregation, and every one of the `N` samples is
consumed by exactly one bucket: the drawn buckets concatenate back to the
waveform, none pending. -/
theorem paintWaveform_bucket_partition
    (v : VoiceData) (x : Int) (rest : List Int)
    (availableWidth barWidth barSkip : Nat)
    (hw : v.waveform = x :: rest) (hx : 0 ≤ x)
    (hwide : 1 ≤ availableWidth / (barWidth + barSkip)) :
    (paintWaveformRun (some v) availableWidth barWidth barSkip).buckets.length
        = barCountOf availableWidth barWidth barSkip v.waveform.length
    ∧ (paintWaveformRun (some v) availableWidth barWidth barSkip).buckets.join
        = v.waveform
    ∧ (paintWaveformRun (some v) availableWidth barWidth barSkip).pending = [] := by
  have hsel : selectWaveform (some v) = some v.waveform := by
    simp [selectWaveform, hw, not_lt.mpr hx]
  have heff : effectiveSamples (some v) = v.waveform := by
    simp [effectiveSamples, hsel]
  have hrun : paintWaveformRun (some v) availableWidth barWidth barSkip
      = paintWaveformBuckets v.waveform
          (barCountOf availableWidth barWidth barSkip v.waveform.length) := by
    simp [paintWaveformRun, heff]
  have hne : v.waveform ≠ [] := by
    rw [hw]
    exact List.cons_ne_nil x rest
  have hN : 1 ≤ v.waveform.length := by
    rw [hw]
    simp
  have hc : 1 ≤ barCountOf availableWidth barWidth barSkip v.waveform.length := by
    unfold barCountOf
    omega
  have hcN : barCountOf availableWidth barWidth barSkip v.waveform.length
      ≤ v.waveform.length := by
    unfold barCountOf
    omega
  rw [hrun]
  exact wf_buckets_partition v.waveform _ hne hc hcN

/-- Witness for C1 (amended) at a concrete input: waveform `[1, 2, 3]`,
`availableWidth = 6`, bar width 2, skip 1, so two bars are drawn and the
buckets `[1]` and `[2, 3]` partition the samples. -/
theorem paintWaveform_bucket_partition_witness :
    1 ≤ 6 / (2 + 1)
    ∧ (paintWaveformRun (some ⟨[1, 2, 3], 3⟩) 6 2 1).buckets.length
        = barCountOf 6 2 1 3
    ∧ (paintWaveformRun (some ⟨[1, 2, 3], 3⟩) 6 2 1).buckets.join = [1, 2, 3] :=
  ⟨by decide,
    (paintWaveform_bucket_partition ⟨[1, 2, 3], 3⟩ 1 [2, 3] 6 2 1 rfl (by decide)
      (by decide)).1,
    (paintWaveform_bucket_partition ⟨[1, 2, 3], 3⟩ 1 [2, 3] 6 2 1 rfl (by decide)
      (by decide)).2.1⟩

theorem validateScan_break (setId : Nat) (isEmoji : Bool) :
    ∀ (icons : List Nat) (j : Nat) (i : Int) (acc : ScanResult),
      firstBreakIdx setId icons = some j →
      (validateScan setId isEmoji icons i acc).newSelected = i + j := by
  intro icons
  induction icons with
  | nil =>
    intro j i acc hj
    simp [firstBreakIdx] at hj
  | cons id rest ih =>
    intro j i acc hj
    by_cases hbm : breakMatch setId id
    · rw [firstBreakIdx, if_pos hbm] at hj
      cases hj
      rw [validateScan, if_pos hbm]
      simp
    · rw [firstBreakIdx, if_neg hbm] at hj
      obtain ⟨j', hj', rfl⟩ := Option.map_eq_some'.mp hj
      have hcast : i + ((j' + 1 : Nat) : Int) = (i + 1) + (j' : Int) := by
        push_cast
        ring
      rw [hcast]
      by_cases hfav : id = FavedSetId
      · rw [validateScan, if_neg hbm, if_pos hfav]
        exact ih j' (i + 1) _ hj'
      · by_cases hall : isEmoji = true ∧ id = AllEmojiSectionSetId
        · rw [validateScan, if_neg hbm, if_neg hfav, if_pos hall]
          exact ih j' (i + 1) _ hj'
        · rw [validateScan, if_neg hbm, if_neg hfav, if_neg hall]
          exact ih j' (i + 1) _ hj'

theorem validateScan_nomatch (setId : Nat) (isEmoji : Bool) :
    ∀ (icons : List Nat) (i : Int) (acc : ScanResult),
      firstBreakIdx setId icons = none →
      ((∃ j : Nat, icons.get? j = some AllEmojiSectionSetId ∧ isEmoji = true
          ∧ (validateScan setId isEmoji icons i acc).newSelected = i + j
          ∧ (validateScan setId isEmoji icons i acc).newSubSelected
              = (setId : Int) - (EmojiSectionSetId 1 : Nat))
        ∨ ((isEmoji = false ∨ AllEmojiSectionSetId ∉ icons)
          ∧ (validateScan setId isEmoji icons i acc).newSelected = acc.newSelected
          ∧ (validateScan setId isEmoji icons i acc).newSubSelected
              = acc.newSubSelected))
      ∧ ((∃ j : Nat, icons.get? j = some FavedSetId
          ∧ (validateScan setId isEmoji icons i acc).favedIconIndex = i + j)
        ∨ (FavedSetId ∉ icons
          ∧ (validateScan setId isEmoji icons i acc).favedIconIndex
              = acc.favedIconIndex)) := by
  intro icons
  induction icons with
  | nil =>
    intro i acc _
    exact ⟨Or.inr ⟨Or.inr (by simp), rfl, rfl⟩, Or.inr ⟨by simp, rfl⟩⟩
  | cons id rest ih =>
    intro i acc hnm
    have hbm : ¬ breakMatch setId id := by
      by_contra hb
      rw [firstBreakIdx, if_pos hb] at hnm
      cases hnm
    have hrest : firstBreakIdx setId rest = none := by
      rw [firstBreakIdx, if_neg hbm] at hnm
      exact Option.map_eq_none'.mp hnm
    by_cases hfav : id = FavedSetId
    · rw [validateScan, if_neg hbm, if_pos hfav]
      obtain ⟨ihsel, ihfav⟩ := ih (i + 1) { acc with favedIconIndex := i } hrest
      constructor
      · rcases ihsel with ⟨j, hget, hie, hsel, hsub⟩ | ⟨hno, hsel, hsub⟩
        · exact Or.inl ⟨j + 1, by simpa using hget, hie,
            by rw [hsel]; push_cast; ring, hsub⟩
        · refine Or.inr ⟨?_, hsel, hsub⟩
          rcases hno with hie | hmem
          · exact Or.inl hie
          · refine Or.inr ?_
            simp only [List.mem_cons, not_or]
            exact ⟨by rw [hfav]; decide, hmem⟩
      · rcases ihfav with ⟨j, hget, hidx⟩ | ⟨hmem, hidx⟩
        · exact Or.inl ⟨j + 1, by simpa using hget, by rw [hidx]; push_cast; ring⟩
        · exact Or.inl ⟨0, by simp [hfav], by rw [hidx]; simp⟩
    · by_cases hall : isEmoji = true ∧ id = AllEmojiSectionSetId
      · rw [validateScan, if_neg hbm, if_neg hfav, if_pos hall]
        obtain ⟨ihsel, ihfav⟩ := ih (i + 1)
          { acc with
              newSelected := i
              newSubSelected := (setId : Int) - (EmojiSectionSetId 1 : Nat) } hrest
        constructor
        · rcases ihsel with ⟨j, hget, hie, hsel, hsub⟩ | ⟨hno, hsel, hsub⟩
          · exact Or.inl ⟨j + 1, by simpa using hget, hie,
              by rw [hsel]; push_cast; ring, hsub⟩
          · exact Or.inl ⟨0, by simp [hall.2], hall.1, by rw [hsel]; simp,
              by rw [hsub]⟩
        · rcases ihfav with ⟨j, hget, hidx⟩ | ⟨hmem, hidx⟩
          · exact Or.inl ⟨j + 1, by simpa using hget, by rw [hidx]; push_cast; ring⟩
          · refine Or.inr ⟨?_, hidx⟩
            simp only [List.mem_cons, not_or]
            exact ⟨fun h => hfav h.symm, hmem⟩
      · rw [validateScan, if_neg hbm, if_neg hfav, if_neg hall]
        obtain ⟨ihsel, ihfav⟩ := ih (i + 1) acc hrest
        constructor
        · rcases ihsel with ⟨j, hget, hie, hsel, hsub⟩ | ⟨hno, hsel, hsub⟩
          · exact Or.inl ⟨j + 1, by simpa using hget, hie,
              by rw [hsel]; push_cast; ring, hsub⟩
          · refine Or.inr ⟨?_, hsel, hsub⟩
            rcases hno with hie | hmem
            · exact Or.inl hie
            · cases hie : isEmoji
              · exact Or.inl rfl
              · refine Or.inr ?_
                simp only [List.mem_cons, not_or]
                refine ⟨fun h => hall ⟨hie, h.symm⟩, hmem⟩
        · rcases ihfav with ⟨j, hget, hidx⟩ | ⟨hmem, hidx⟩
          · exact Or.inl ⟨j + 1, by simpa using hget, by rw [hidx]; push_cast; ring⟩
          · refine Or.inr ⟨?_, hidx⟩
            simp only [List.mem_cons, not_or]
            exact ⟨fun h => hfav h.symm, hmem⟩

theorem emojiSection_setId_ge (setId : Nat) (h : isEmojiSectionOf setId = true) :
    EmojiSectionSetId 1 ≤ setId := by
  unfold isEmojiSectionOf at h
  rcases hs : SetIdEmojiSection setId with _ | s
  · rw [hs] at h
    cases h
  · rw [hs] at h
    simp only [decide_eq_true_eq] at h
    rw [SetIdEmojiSection] at hs
    rcases Nat.lt_or_ge setId RecentEmojiSectionSetId with hlt | hge
    · rw [if_pos hlt] at hs
      exact Option.noConfusion hs
    · rw [if_neg (not_lt.mpr hge)] at hs
      by_cases hle : setId - RecentEmojiSectionSetId ≤ 7
      · rw [if_pos hle] at hs
        have hs2 : setId - RecentEmojiSectionSetId = s := Option.some.inj hs
        simp only [EmojiSectionSetId, RecentEmojiSectionSetId, kEmojiSectionSetIdBase]
          at hge hs2 ⊢
        omega
      · rw [if_neg hle] at hs
        exact Option.noConfusion hs

/-- Claim C4, counterexample: with icons `[Faved, Recent]` and the Recent
sticker-set id requested, icon 1 matches the set id exactly, yet the loop
breaks on the earlier Faved icon (which also matches a Recent request), so
index 0 is selected, not the exact match at index 1. -/
theorem validateSelectedIcon_faved_overrides_exact :
    [FavedSetId, RecentSetId].get? 1 = some RecentSetId
    ∧ (validateSelectedIcon [FavedSetId, RecentSetId] RecentSetId).1 = 0
    ∧ (validateSelectedIcon [FavedSetId, RecentSetId] RecentSetId).1 ≠ 1 := by
  exact ⟨rfl, by decide, by decide⟩

/-- Claim C4, amended: `validateSelectedIcon(setId)` selects the first icon
whose set id matches `setId` exactly or which is the Faved icon while
`setId` is the Recent sticker-set id; otherwise, if `setId` denotes an
emoji section other than Recent and an "All Emoji" icon is present, that
icon is selected and the sub-selection index is `setId` minus the People
section id; otherwise the Faved icon is selected when present, else
index 0. -/
theorem validateSelectedIcon_characterization (icons : List Nat) (setId : Nat) :
    (∀ j, firstBreakIdx setId icons = some j →
      (validateSelectedIcon icons setId).1 = j)
    ∧ (firstBreakIdx setId icons = none → isEmojiSectionOf setId = true →
        AllEmojiSectionSetId ∈ icons →
        icons.get? (validateSelectedIcon icons setId).1.toNat
            = some AllEmojiSectionSetId
        ∧ (validateSelectedIcon icons setId).2
            = (setId : Int) - (EmojiSectionSetId 1 : Nat))
    ∧ (firstBreakIdx setId icons = none →
        ¬(isEmojiSectionOf setId = true ∧ AllEmojiSectionSetId ∈ icons) →
        FavedSetId ∈ icons →
        icons.get? (validateSelectedIcon icons setId).1.toNat = some FavedSetId)
    ∧ (firstBreakIdx setId icons = none →
        ¬(isEmojiSectionOf setId = true ∧ AllEmojiSectionSetId ∈ icons) →
        FavedSetId ∉ icons →
        (validateSelectedIcon icons setId).1 = 0
        ∧ (validateSelectedIcon icons setId).2 = 0) := by
  have hfst : (validateSelectedIcon icons setId).1
      = (if 0 ≤ (validateScan setId (isEmojiSectionOf setId) icons 0
            ⟨-1, -1, -1⟩).newSelected
         then (validateScan setId (isEmojiSectionOf setId) icons 0
            ⟨-1, -1, -1⟩).newSelected
         else if 0 ≤ (validateScan setId (isEmojiSectionOf setId) icons 0
            ⟨-1, -1, -1⟩).favedIconIndex
         then (validateScan setId (isEmojiSectionOf setId) icons 0
            ⟨-1, -1, -1⟩).favedIconIndex
         else 0) := rfl
  have hsnd : (validateSelectedIcon icons setId).2
      = (if 0 ≤ (validateScan setId (isEmojiSectionOf setId) icons 0
            ⟨-1, -1, -1⟩).newSubSelected
         then (validateScan setId (isEmojiSectionOf setId) icons 0
            ⟨-1, -1, -1⟩).newSubSelected
         else 0) := rfl
  refine ⟨?_, ?_, ?_, ?_⟩
  · intro j hj
    have hb := validateScan_break setId (isEmojiSectionOf setId) icons j 0
      ⟨-1, -1, -1⟩ hj
    rw [hfst, hb, if_pos (by omega)]
    omega
  · intro hnone hie hmem
    obtain ⟨selpart, -⟩ := validateScan_nomatch setId (isEmojiSectionOf setId)
      icons 0 ⟨-1, -1, -1⟩ hnone
    rcases selpart with ⟨j, hget, -, hsel, hsub⟩ | ⟨hno, -, -⟩
    · have h1 : (validateSelectedIcon icons setId).1 = (j : Int) := by
        rw [hfst, hsel, if_pos (by omega)]
        omega
      have hge := emojiSection_setId_ge setId hie
      have h2 : (validateSelectedIcon icons setId).2
          = (setId : Int) - (EmojiSectionSetId 1 : Nat) := by
        rw [hsnd, hsub, if_pos (by omega)]
      refine ⟨?_, h2⟩
      rw [h1]
      simpa using hget
    · rcases hno with hfalse | hnm
      · rw [hie] at hfalse
        cases hfalse
      · exact absurd hmem hnm
  · intro hnone hnot hmem
    obtain ⟨selpart, favpart⟩ := validateScan_nomatch setId (isEmojiSectionOf setId)
      icons 0 ⟨-1, -1, -1⟩ hnone
    rcases selpart with ⟨j, hget, hie2, -, -⟩ | ⟨-, hsel, -⟩
    · exact absurd ⟨hie2, List.get?_mem hget⟩ hnot
    · have hsel2 : (validateScan setId (isEmojiSectionOf setId) icons 0
          ⟨-1, -1, -1⟩).newSelected = -1 := hsel
      rcases favpart with ⟨j, hget, hidx⟩ | ⟨hnm, -⟩
      · have h1 : (validateSelectedIcon icons setId).1 = (j : Int) := by
          rw [hfst, hsel2, if_neg (by omega), hidx, if_pos (by omega)]
          omega
        rw [h1]
        simpa using hget
      · exact absurd hmem hnm
  · intro hnone hnot hmem
    obtain ⟨selpart, favpart⟩ := validateScan_nomatch setId (isEmojiSectionOf setId)
      icons 0 ⟨-1, -1, -1⟩ hnone
    rcases selpart with ⟨j, hget, hie2, -, -⟩ | ⟨-, hsel, hsub⟩
    · exact absurd ⟨hie2, List.get?_mem hget⟩ hnot
    · have hsel2 : (validateScan setId (isEmojiSectionOf setId) icons 0
          ⟨-1, -1, -1⟩).newSelected = -1 := hsel
      have hsub2 : (validateScan setId (isEmojiSectionOf setId) icons 0
          ⟨-1, -1, -1⟩).newSubSelected = -1 := hsub
      rcases favpart with ⟨j, hget, -⟩ | ⟨-, hidx⟩
      · exact absurd (List.get?_mem hget) hmem
      · have hidx2 : (validateScan setId (isEmojiSectionOf setId) icons 0
            ⟨-1, -1, -1⟩).favedIconIndex = -1 := hidx
        constructor
        · rw [hfst, hsel2, if_neg (by omega), hidx2, if_neg (by omega)]
        · rw [hsnd, hsub2, if_neg (by omega)]

/-- Witness for C4 (amended) at a concrete input: icons `[Recent, AllEmoji]`
and the Food emoji-section id select the All Emoji icon with sub-index
`Food - People = 2`. -/
theorem validateSelectedIcon_characterization_witness :
    [RecentSetId, AllEmojiSectionSetId].get?
        (validateSelectedIcon [RecentSetId, AllEmojiSectionSetId]
          (EmojiSectionSetId 3)).1.toNat = some AllEmojiSectionSetId
    ∧ (validateSelectedIcon [RecentSetId, AllEmojiSectionSetId]
        (EmojiSectionSetId 3)).2
      = ((EmojiSectionSetId 3 : Nat) : Int) - (EmojiSectionSetId 1 : Nat) :=
  (validateSelectedIcon_characterization [RecentSetId, AllEmojiSectionSetId]
    (EmojiSectionSetId 3)).2.1 (by decide) (by decide) (by decide)

end Spec2Proof
